import Mathlib

/-!
# Verification of the transaction/inventory consistency engine

Shallow embedding of the clinic-management server's stock and transaction
handlers (`create_transaction.ts`, `update_transaction.ts`, the stock
management handlers) and proofs about them.

Modelling conventions:
* Database state is an explicit `DB` record of row lists plus per-table
  id counters (modelling the serial primary keys).
* The ORM's `db.transaction` wrapper is modelled by `dbTransaction`:
  the body threads an intermediate database through `Except`; on any
  thrown error the original database is returned (rollback).
* Timestamps (`new Date()`) are modelled by a `now : Nat` parameter.
* Currency values (stored as numeric strings and parsed with `parseFloat`)
  are modelled as exact rationals `ℚ`; stock quantities as integers `ℤ`
  (the SQL `integer` column admits negative values).
* Row fields that none of the verified operations read or write
  (e.g. medicine expiry date, supplier, patient demographics) are omitted.
-/

namespace RumahKhitan

/-- `payment_status` enum of the `transactions` table. -/
inductive PaymentStatus
  | pending
  | paid
  | cancelled
deriving DecidableEq, Repr

/-- `payment_method` enum (tunai = cash, transfer, kartu = card). -/
inductive PaymentMethod
  | tunai
  | transfer
  | kartu
deriving DecidableEq, Repr

/-- `movement_type` enum of the `stock_movements` table
(masuk = in, keluar = out). -/
inductive MovementType
  | masuk
  | keluar
deriving DecidableEq, Repr

/-- A row of the `medicines` table (fields used by the verified handlers). -/
structure Medicine where
  id : Nat
  name : String
  price_per_unit : ℚ
  stock_quantity : ℤ
  updated_at : Nat
deriving DecidableEq, Repr

/-- A row of the `services` table. -/
structure Service where
  id : Nat
  name : String
  price : ℚ
  is_active : Bool
deriving DecidableEq, Repr

/-- A row of the `patients` table (only existence matters to the handlers). -/
structure Patient where
  id : Nat
deriving DecidableEq, Repr

/-- A row of the `transactions` table. -/
structure Transaction where
  id : Nat
  patient_id : Nat
  total_amount : ℚ
  payment_method : PaymentMethod
  payment_status : PaymentStatus
  notes : Option String
  created_at : Nat
  updated_at : Nat
deriving DecidableEq, Repr

/-- A row of the `transaction_services` line-item table. -/
structure TransactionService where
  id : Nat
  transaction_id : Nat
  service_id : Nat
  quantity : ℤ
  price_per_unit : ℚ
  total_price : ℚ
deriving DecidableEq, Repr

/-- A row of the `transaction_medicines` line-item table. -/
structure TransactionMedicine where
  id : Nat
  transaction_id : Nat
  medicine_id : Nat
  quantity : ℤ
  price_per_unit : ℚ
  total_price : ℚ
deriving DecidableEq, Repr

/-- A row of the `stock_movements` audit table. -/
structure StockMovement where
  id : Nat
  medicine_id : Nat
  movement_type : MovementType
  quantity : ℤ
  reference_id : Option Nat
  notes : Option String
deriving DecidableEq, Repr

/-- A row of the `patient_visits` table. -/
structure PatientVisit where
  id : Nat
  patient_id : Nat
  transaction_id : Option Nat
  visit_date : Nat
  notes : Option String
deriving DecidableEq, Repr

/-- The whole relational store, with serial-id counters per table. -/
structure DB where
  patients : List Patient
  services : List Service
  medicines : List Medicine
  transactions : List Transaction
  transactionServices : List TransactionService
  transactionMedicines : List TransactionMedicine
  stockMovements : List StockMovement
  patientVisits : List PatientVisit
  nextTransactionId : Nat
  nextMovementId : Nat
  nextTransactionServiceId : Nat
  nextTransactionMedicineId : Nat
  nextVisitId : Nat
deriving DecidableEq, Repr

/-- The error values thrown by the handlers, one constructor per
`throw new Error(...)` site, carrying the data interpolated into the
source's message string. -/
inductive Err
  | patientNotFound (id : Nat)
  | serviceNotFound (id : Nat)
  | serviceNotActive (name : String)
  | medicineNotFoundWithId (id : Nat)
  | medicineNotFound
  | insufficientStockForMedicine (name : String) (available required : ℤ)
  | insufficientStockReactivation (medicineId : Nat)
  | insufficientStockMovement
  | negativeStockQuantity
  | transactionNotFound
  | updateFailed
  | rowVanished
deriving DecidableEq, Repr

/-- `SELECT * FROM patients WHERE id = i` (first matching row). -/
def lookupPatient : List Patient → Nat → Option Patient
  | [], _ => none
  | p :: rest, i => if p.id = i then some p else lookupPatient rest i

/-- `SELECT * FROM services WHERE id = i` (first matching row). -/
def lookupService : List Service → Nat → Option Service
  | [], _ => none
  | s :: rest, i => if s.id = i then some s else lookupService rest i

/-- `SELECT * FROM medicines WHERE id = i` (first matching row). -/
def lookupMedicine : List Medicine → Nat → Option Medicine
  | [], _ => none
  | m :: rest, i => if m.id = i then some m else lookupMedicine rest i

/-- `SELECT * FROM transactions WHERE id = i` (first matching row). -/
def lookupTransaction : List Transaction → Nat → Option Transaction
  | [], _ => none
  | t :: rest, i => if t.id = i then some t else lookupTransaction rest i

/-- `UPDATE medicines SET stock_quantity = q, updated_at = now WHERE id = i`. -/
def setMedicineStock : List Medicine → Nat → ℤ → Nat → List Medicine
  | [], _, _, _ => []
  | m :: rest, i, q, now =>
      if m.id = i then
        { m with stock_quantity := q, updated_at := now } :: setMedicineStock rest i q now
      else m :: setMedicineStock rest i q now

/-- `UPDATE medicines SET stock_quantity = stock_quantity - q, updated_at = now
WHERE id = i` (the SQL-expression update used by `createTransaction`). -/
def subtractMedicineStock : List Medicine → Nat → ℤ → Nat → List Medicine
  | [], _, _, _ => []
  | m :: rest, i, q, now =>
      if m.id = i then
        { m with stock_quantity := m.stock_quantity - q, updated_at := now } ::
          subtractMedicineStock rest i q now
      else m :: subtractMedicineStock rest i q now

/-- `UPDATE transactions SET payment_status = s, updated_at = now WHERE id = i`. -/
def setTransactionStatus : List Transaction → Nat → PaymentStatus → Nat → List Transaction
  | [], _, _, _ => []
  | t :: rest, i, s, now =>
      if t.id = i then
        { t with payment_status := s, updated_at := now } :: setTransactionStatus rest i s now
      else t :: setTransactionStatus rest i s now

/-- `SELECT * FROM stock_movements WHERE reference_id = refId`. -/
def movementsWithReference : List StockMovement → Nat → List StockMovement
  | [], _ => []
  | mv :: rest, refId =>
      if mv.reference_id = some refId then mv :: movementsWithReference rest refId
      else movementsWithReference rest refId

/-- `SELECT * FROM transaction_medicines WHERE transaction_id = txId`. -/
def lineItemsOfTransaction : List TransactionMedicine → Nat → List TransactionMedicine
  | [], _ => []
  | item :: rest, txId =>
      if item.transaction_id = txId then item :: lineItemsOfTransaction rest txId
      else lineItemsOfTransaction rest txId

/-- The stock level of a medicine, when it exists. -/
def stockOf (db : DB) (medicineId : Nat) : Option ℤ :=
  (lookupMedicine db.medicines medicineId).map Medicine.stock_quantity

/-- `db.transaction(body)`: commit the body's final state on success,
roll back to the initial state on a thrown error. -/
def dbTransaction {α : Type} (db : DB) (body : Except Err (DB × α)) :
    DB × Except Err α :=
  match body with
  | .ok (db2, a) => (db2, .ok a)
  | .error e => (db, .error e)

/-- One element of `CreateTransactionInput.services`
(zod: quantity is a positive integer). -/
structure ServiceItem where
  service_id : Nat
  quantity : ℤ
deriving DecidableEq, Repr

/-- One element of `CreateTransactionInput.medicines`
(zod: quantity is a positive integer). -/
structure MedicineItem where
  medicine_id : Nat
  quantity : ℤ
deriving DecidableEq, Repr

/-- `CreateTransactionInput` (an absent `medicines` field is the empty list:
the source guards every medicine loop with `medicines.length > 0`, which is
the same as iterating the empty list). -/
structure CreateTransactionInput where
  patient_id : Nat
  payment_method : PaymentMethod
  payment_status : PaymentStatus
  notes : Option String
  services : List ServiceItem
  medicines : List MedicineItem
deriving DecidableEq, Repr

/-- Step 2 of `createTransaction`: validate each service (exists, active)
and accumulate `serviceTotal`. -/
def serviceTotalLoop (db : DB) (acc : ℚ) : List ServiceItem → Except Err ℚ
  | [] => .ok acc
  | item :: rest =>
      match lookupService db.services item.service_id with
      | none => .error (.serviceNotFound item.service_id)
      | some s =>
          if s.is_active then
            serviceTotalLoop db (acc + s.price * (item.quantity : ℚ)) rest
          else .error (.serviceNotActive s.name)

/-- Step 3 of `createTransaction`: validate each medicine (exists, enough
stock) and accumulate `medicineTotal`.  Note: this loop performs no
deduction, so every item is checked against the unmodified stock level. -/
def medicineTotalLoop (db : DB) (acc : ℚ) : List MedicineItem → Except Err ℚ
  | [] => .ok acc
  | item :: rest =>
      match lookupMedicine db.medicines item.medicine_id with
      | none => .error (.medicineNotFoundWithId item.medicine_id)
      | some m =>
          if m.stock_quantity < item.quantity then
            .error (.insufficientStockForMedicine m.name m.stock_quantity item.quantity)
          else
            medicineTotalLoop db (acc + m.price_per_unit * (item.quantity : ℚ)) rest

/-- Step 6 of `createTransaction`: insert one `transaction_services` row per
service item, re-fetching the service to snapshot its current price
(the source indexes `service[0]` without a length check; a vanished row
would crash, modelled by `Err.rowVanished`). -/
def insertServiceItemsLoop (txId : Nat) : DB → List ServiceItem → Except Err DB
  | db, [] => .ok db
  | db, item :: rest =>
      match lookupService db.services item.service_id with
      | none => .error .rowVanished
      | some s =>
          let row : TransactionService :=
            { id := db.nextTransactionServiceId
              transaction_id := txId
              service_id := item.service_id
              quantity := item.quantity
              price_per_unit := s.price
              total_price := s.price * (item.quantity : ℚ) }
          insertServiceItemsLoop txId
            { db with
                transactionServices := db.transactionServices ++ [row]
                nextTransactionServiceId := db.nextTransactionServiceId + 1 } rest

/-- Step 7 of `createTransaction`: per medicine item, insert one
`transaction_medicines` row (snapshotting the current price), subtract the
quantity from stock via a SQL-expression update, and append one `keluar`
stock movement referencing the transaction. -/
def insertMedicineItemsLoop (txId : Nat) (now : Nat) :
    DB → List MedicineItem → Except Err DB
  | db, [] => .ok db
  | db, item :: rest =>
      match lookupMedicine db.medicines item.medicine_id with
      | none => .error .rowVanished
      | some m =>
          let row : TransactionMedicine :=
            { id := db.nextTransactionMedicineId
              transaction_id := txId
              medicine_id := item.medicine_id
              quantity := item.quantity
              price_per_unit := m.price_per_unit
              total_price := m.price_per_unit * (item.quantity : ℚ) }
          let db1 :=
            { db with
                transactionMedicines := db.transactionMedicines ++ [row]
                nextTransactionMedicineId := db.nextTransactionMedicineId + 1 }
          let db2 :=
            { db1 with
                medicines := subtractMedicineStock db1.medicines item.medicine_id
                  item.quantity now }
          let mv : StockMovement :=
            { id := db2.nextMovementId
              medicine_id := item.medicine_id
              movement_type := .keluar
              quantity := item.quantity
              reference_id := some txId
              notes := some ("Medicine used in transaction #" ++ toString txId) }
          insertMedicineItemsLoop txId now
            { db2 with
                stockMovements := db2.stockMovements ++ [mv]
                nextMovementId := db2.nextMovementId + 1 } rest

/-- The body of `createTransaction` (handlers/create_transaction.ts),
run inside the ORM transaction wrapper. -/
def createTransactionBody (db : DB) (input : CreateTransactionInput) (now : Nat) :
    Except Err (DB × Transaction) :=
  match lookupPatient db.patients input.patient_id with
  | none => .error (.patientNotFound input.patient_id)
  | some _ => do
      let serviceTotal ← serviceTotalLoop db 0 input.services
      let medicineTotal ← medicineTotalLoop db 0 input.medicines
      let totalAmount := serviceTotal + medicineTotal
      let txn : Transaction :=
        { id := db.nextTransactionId
          patient_id := input.patient_id
          total_amount := totalAmount
          payment_method := input.payment_method
          payment_status := input.payment_status
          notes := input.notes
          created_at := now
          updated_at := now }
      let db1 :=
        { db with
            transactions := db.transactions ++ [txn]
            nextTransactionId := db.nextTransactionId + 1 }
      let db2 ← insertServiceItemsLoop txn.id db1 input.services
      let db3 ← insertMedicineItemsLoop txn.id now db2 input.medicines
      let visit : PatientVisit :=
        { id := db3.nextVisitId
          patient_id := input.patient_id
          transaction_id := some txn.id
          visit_date := now
          notes := some ("Transaction #" ++ toString txn.id) }
      let db4 :=
        { db3 with
            patientVisits := db3.patientVisits ++ [visit]
            nextVisitId := db3.nextVisitId + 1 }
      .ok (db4, txn)

/-- `createTransaction`: the body inside `db.transaction` (all-or-nothing). -/
def createTransaction (db : DB) (input : CreateTransactionInput) (now : Nat) :
    DB × Except Err Transaction :=
  dbTransaction db (createTransactionBody db input now)

/-- The cancellation loop of `updateTransactionStatus`: for each previously
selected movement referencing the transaction, if it is a `keluar` movement,
read the medicine's current stock, add the movement's quantity back, and
append a `masuk` reversal movement with the same medicine, quantity and
reference.  `masuk` movements in the selection are skipped. -/
def reverseMovementsLoop (refId : Nat) (now : Nat) :
    DB → List StockMovement → Except Err DB
  | db, [] => .ok db
  | db, mv :: rest =>
      match mv.movement_type with
      | .masuk => reverseMovementsLoop refId now db rest
      | .keluar =>
          match lookupMedicine db.medicines mv.medicine_id with
          | none => .error (.medicineNotFoundWithId mv.medicine_id)
          | some m =>
              let db1 :=
                { db with
                    medicines := setMedicineStock db.medicines mv.medicine_id
                      (m.stock_quantity + mv.quantity) now }
              let rev : StockMovement :=
                { id := db1.nextMovementId
                  medicine_id := mv.medicine_id
                  movement_type := .masuk
                  quantity := mv.quantity
                  reference_id := some refId
                  notes := some ("Pembatalan transaksi #" ++ toString refId ++
                    " - pemulihan stok") }
              reverseMovementsLoop refId now
                { db1 with
                    stockMovements := db1.stockMovements ++ [rev]
                    nextMovementId := db1.nextMovementId + 1 } rest

/-- The reactivation loop of `updateTransactionStatus`: for each
`transaction_medicines` line item of the transaction, check current stock
sufficiency, deduct, and append a `keluar` movement referencing the
transaction. -/
def redeductLoop (refId : Nat) (now : Nat) :
    DB → List TransactionMedicine → Except Err DB
  | db, [] => .ok db
  | db, item :: rest =>
      match lookupMedicine db.medicines item.medicine_id with
      | none => .error (.medicineNotFoundWithId item.medicine_id)
      | some m =>
          if m.stock_quantity < item.quantity then
            .error (.insufficientStockReactivation item.medicine_id)
          else
            let db1 :=
              { db with
                  medicines := setMedicineStock db.medicines item.medicine_id
                    (m.stock_quantity - item.quantity) now }
            let mv : StockMovement :=
              { id := db1.nextMovementId
                medicine_id := item.medicine_id
                movement_type := .keluar
                quantity := item.quantity
                reference_id := some refId
                notes := some ("Reaktivasi transaksi #" ++ toString refId ++
                  " - pengurangan stok") }
            redeductLoop refId now
              { db1 with
                  stockMovements := db1.stockMovements ++ [mv]
                  nextMovementId := db1.nextMovementId + 1 } rest

/-- The body of `updateTransactionStatus` (handlers/update_transaction.ts):
load the transaction, reverse `keluar` movements when entering `cancelled`,
re-deduct line items when leaving `cancelled`, then write the new status
and `updated_at` and return the updated row. -/
def updateTransactionStatusBody (db : DB) (id : Nat)
    (paymentStatus : PaymentStatus) (now : Nat) :
    Except Err (DB × Transaction) :=
  match lookupTransaction db.transactions id with
  | none => .error .transactionNotFound
  | some current => do
      let db1 ←
        if paymentStatus = .cancelled ∧ current.payment_status ≠ .cancelled then
          reverseMovementsLoop id now db (movementsWithReference db.stockMovements id)
        else .ok db
      let db2 ←
        if current.payment_status = .cancelled ∧ paymentStatus ≠ .cancelled then
          redeductLoop id now db1 (lineItemsOfTransaction db1.transactionMedicines id)
        else .ok db1
      let db3 :=
        { db2 with
            transactions := setTransactionStatus db2.transactions id paymentStatus now }
      match lookupTransaction db3.transactions id with
      | none => .error .updateFailed
      | some updated => .ok (db3, updated)

/-- `updateTransactionStatus`: the body inside `db.transaction`. -/
def updateTransactionStatus (db : DB) (id : Nat)
    (paymentStatus : PaymentStatus) (now : Nat) :
    DB × Except Err Transaction :=
  dbTransaction db (updateTransactionStatusBody db id paymentStatus now)

/-- `CreateStockMovementInput` (zod: quantity is a positive integer). -/
structure CreateStockMovementInput where
  medicine_id : Nat
  movement_type : MovementType
  quantity : ℤ
  reference_id : Option Nat
  notes : Option String
deriving DecidableEq, Repr

/-- The body of `createStockMovement` (stock management handler): verify the
medicine exists, compute the new stock (rejecting a `keluar` that would go
negative), update the stock and append exactly one movement row. -/
def createStockMovementBody (db : DB) (input : CreateStockMovementInput)
    (now : Nat) : Except Err (DB × StockMovement) :=
  match lookupMedicine db.medicines input.medicine_id with
  | none => .error .medicineNotFound
  | some m => do
      let newStock : ℤ ←
        match input.movement_type with
        | .masuk => .ok (m.stock_quantity + input.quantity)
        | .keluar =>
            let n := m.stock_quantity - input.quantity
            if n < 0 then .error .insufficientStockMovement else .ok n
      let db1 :=
        { db with
            medicines := setMedicineStock db.medicines input.medicine_id newStock now }
      let mv : StockMovement :=
        { id := db1.nextMovementId
          medicine_id := input.medicine_id
          movement_type := input.movement_type
          quantity := input.quantity
          reference_id := input.reference_id
          notes := input.notes }
      .ok ({ db1 with
               stockMovements := db1.stockMovements ++ [mv]
               nextMovementId := db1.nextMovementId + 1 }, mv)

/-- `createStockMovement`: the body inside `db.transaction`. -/
def createStockMovement (db : DB) (input : CreateStockMovementInput)
    (now : Nat) : DB × Except Err StockMovement :=
  dbTransaction db (createStockMovementBody db input now)

/-- The body of `adjustStock` (stock management handler): verify the medicine
exists, reject a negative target, compute the difference from the current
stock; when non-zero, set the stock to the target and append one movement of
magnitude `|difference|` in the matching direction with a null reference.
(The source's `notes || defaultText` is modelled on `Option`.) -/
def adjustStockBody (db : DB) (medicineId : Nat) (newQuantity : ℤ)
    (notes : Option String) (now : Nat) : Except Err (DB × Unit) :=
  match lookupMedicine db.medicines medicineId with
  | none => .error .medicineNotFound
  | some m =>
      if newQuantity < 0 then .error .negativeStockQuantity
      else
        let difference := newQuantity - m.stock_quantity
        if difference = 0 then .ok (db, ())
        else
          let movementType : MovementType := if 0 < difference then .masuk else .keluar
          let db1 :=
            { db with
                medicines := setMedicineStock db.medicines medicineId newQuantity now }
          let mv : StockMovement :=
            { id := db1.nextMovementId
              medicine_id := medicineId
              movement_type := movementType
              quantity := abs difference
              reference_id := none
              notes := some (notes.getD ("Stock adjustment: " ++
                toString m.stock_quantity ++ " to " ++ toString newQuantity)) }
          .ok ({ db1 with
                   stockMovements := db1.stockMovements ++ [mv]
                   nextMovementId := db1.nextMovementId + 1 }, ())

/-- `adjustStock`: the body inside `db.transaction`. -/
def adjustStock (db : DB) (medicineId : Nat) (newQuantity : ℤ)
    (notes : Option String) (now : Nat) : DB × Except Err Unit :=
  dbTransaction db (adjustStockBody db medicineId newQuantity notes now)

/-! ## Stability lemmas about the row-level primitives -/

theorem lookupMedicine_setMedicineStock_self (l : List Medicine) (i : Nat)
    (q : ℤ) (now : Nat) :
    lookupMedicine (setMedicineStock l i q now) i
      = (lookupMedicine l i).map
          (fun m => { m with stock_quantity := q, updated_at := now }) := by
  induction l with
  | nil => rfl
  | cons m rest ih =>
      by_cases h : m.id = i
      · simp [setMedicineStock, lookupMedicine, h]
      · simp [setMedicineStock, lookupMedicine, h, ih]

theorem lookupMedicine_setMedicineStock_ne (l : List Medicine) (i j : Nat)
    (q : ℤ) (now : Nat) (h : j ≠ i) :
    lookupMedicine (setMedicineStock l i q now) j = lookupMedicine l j := by
  induction l with
  | nil => rfl
  | cons m rest ih =>
      by_cases hm : m.id = i
      · have hij : ¬ i = j := fun hij => h hij.symm
        simp [setMedicineStock, lookupMedicine, hm, hij, ih]
      · simp only [setMedicineStock, if_neg hm, lookupMedicine]
        by_cases hj : m.id = j
        · simp [hj]
        · simp [hj, ih]

theorem lookupMedicine_subtractMedicineStock_self (l : List Medicine) (i : Nat)
    (q : ℤ) (now : Nat) :
    lookupMedicine (subtractMedicineStock l i q now) i
      = (lookupMedicine l i).map
          (fun m => { m with stock_quantity := m.stock_quantity - q, updated_at := now }) := by
  induction l with
  | nil => rfl
  | cons m rest ih =>
      by_cases h : m.id = i
      · simp [subtractMedicineStock, lookupMedicine, h]
      · simp [subtractMedicineStock, lookupMedicine, h, ih]

theorem lookupMedicine_subtractMedicineStock_ne (l : List Medicine) (i j : Nat)
    (q : ℤ) (now : Nat) (h : j ≠ i) :
    lookupMedicine (subtractMedicineStock l i q now) j = lookupMedicine l j := by
  induction l with
  | nil => rfl
  | cons m rest ih =>
      by_cases hm : m.id = i
      · have hij : ¬ i = j := fun hij => h hij.symm
        simp [subtractMedicineStock, lookupMedicine, hm, hij, ih]
      · simp only [subtractMedicineStock, if_neg hm, lookupMedicine]
        by_cases hj : m.id = j
        · simp [hj]
        · simp [hj, ih]

theorem price_setMedicineStock (l : List Medicine) (i j : Nat) (q : ℤ) (now : Nat) :
    (lookupMedicine (setMedicineStock l i q now) j).map Medicine.price_per_unit
      = (lookupMedicine l j).map Medicine.price_per_unit := by
  by_cases h : j = i
  · subst h; rw [lookupMedicine_setMedicineStock_self]; cases lookupMedicine l j <;> rfl
  · rw [lookupMedicine_setMedicineStock_ne _ _ _ _ _ h]

theorem price_subtractMedicineStock (l : List Medicine) (i j : Nat) (q : ℤ) (now : Nat) :
    (lookupMedicine (subtractMedicineStock l i q now) j).map Medicine.price_per_unit
      = (lookupMedicine l j).map Medicine.price_per_unit := by
  by_cases h : j = i
  · subst h; rw [lookupMedicine_subtractMedicineStock_self]; cases lookupMedicine l j <;> rfl
  · rw [lookupMedicine_subtractMedicineStock_ne _ _ _ _ _ h]

theorem isSome_setMedicineStock (l : List Medicine) (i j : Nat) (q : ℤ) (now : Nat) :
    (lookupMedicine (setMedicineStock l i q now) j).isSome
      = (lookupMedicine l j).isSome := by
  by_cases h : j = i
  · subst h; rw [lookupMedicine_setMedicineStock_self]; cases lookupMedicine l j <;> rfl
  · rw [lookupMedicine_setMedicineStock_ne _ _ _ _ _ h]

theorem lookupTransaction_setTransactionStatus_self (l : List Transaction) (i : Nat)
    (s : PaymentStatus) (now : Nat) :
    lookupTransaction (setTransactionStatus l i s now) i
      = (lookupTransaction l i).map
          (fun t => { t with payment_status := s, updated_at := now }) := by
  induction l with
  | nil => rfl
  | cons t rest ih =>
      by_cases h : t.id = i
      · simp [setTransactionStatus, lookupTransaction, h]
      · simp [setTransactionStatus, lookupTransaction, h, ih]

/-- Rolling back: if the transaction body threw, the database is the
initial one (shared by the atomicity results below). -/
theorem dbTransaction_error_fst {α : Type} (db : DB) (body : Except Err (DB × α))
    (e : Err) (h : (dbTransaction db body).2 = .error e) :
    (dbTransaction db body).1 = db := by
  cases body with
  | ok p => cases p with | mk db2 a => simp [dbTransaction] at h
  | error e2 => rfl

/-! ## Concrete fixtures used by the witnesses and the counterexample -/

/-- A medicine row: Paracetamol, price 2 per unit, 5 in stock. -/
def paracetamol : Medicine where
  id := 1
  name := "Paracetamol"
  price_per_unit := 2
  stock_quantity := 5
  updated_at := 0

/-- A database with one patient, one active service and one medicine. -/
def baseDB : DB where
  patients := [{ id := 1 }]
  services := [{ id := 3, name := "Khitan", price := 50, is_active := true }]
  medicines := [paracetamol]
  transactions := []
  transactionServices := []
  transactionMedicines := []
  stockMovements := []
  patientVisits := []
  nextTransactionId := 10
  nextMovementId := 20
  nextTransactionServiceId := 30
  nextTransactionMedicineId := 40
  nextVisitId := 50

/-- A zod-valid input whose `medicines` array lists the same medicine twice,
each line with a positive quantity that individually fits the stock. -/
def duplicateItemsInput : CreateTransactionInput where
  patient_id := 1
  payment_method := .tunai
  payment_status := .pending
  notes := none
  services := []
  medicines := [⟨1, 5⟩, ⟨1, 5⟩]

/-- An input referencing a patient that does not exist. -/
def missingPatientInput : CreateTransactionInput where
  patient_id := 99
  payment_method := .tunai
  payment_status := .pending
  notes := none
  services := []
  medicines := []

/-- A pending transaction row matching `baseDB`'s counters. -/
def pendingTxn : Transaction where
  id := 10
  patient_id := 1
  total_amount := 6
  payment_method := .tunai
  payment_status := .pending
  notes := none
  created_at := 1
  updated_at := 1

/-- `baseDB` together with one pending transaction. -/
def dbWithTxn : DB := { baseDB with transactions := [pendingTxn] }

/-! ## Claims -/

/-- C1: the claim states that `stock_quantity` stays non-negative after any
sequence of the four operations from a non-negative state.  The code violates
it: `createTransaction` validates every medicine line item against the
untouched stock level before deducting anything, so an input that lists the
same medicine twice (allowed by the input schema, each quantity positive and
individually within stock) passes validation and then deducts twice.  From a
state with stock 5, the call succeeds and leaves stock −5. -/
theorem createTransaction_duplicate_items_drive_stock_negative :
    stockOf baseDB 1 = some 5 ∧
    (∀ item ∈ duplicateItemsInput.medicines, 0 < item.quantity) ∧
    (createTransaction baseDB duplicateItemsInput 1).2.toOption.isSome = true ∧
    stockOf (createTransaction baseDB duplicateItemsInput 1).1 1 = some (-5) :=
  ⟨rfl, by decide, rfl, rfl⟩

/-- C2: whenever `createTransaction` fails, the database is left completely
unchanged — no transaction header, no line items, no stock movement, no
patient visit, and no stock change — because every write happens inside the
`db.transaction` unit, which rolls back on a thrown error. -/
theorem createTransaction_failure_leaves_database_unchanged
    (db : DB) (input : CreateTransactionInput) (now : Nat) (e : Err)
    (h : (createTransaction db input now).2 = .error e) :
    (createTransaction db input now).1 = db :=
  dbTransaction_error_fst db _ e h

/-- Witness for C2 at a concrete failing input (patient 99 absent). -/
theorem createTransaction_failure_witness :
    (createTransaction baseDB missingPatientInput 0).2
      = .error (.patientNotFound 99) ∧
    (createTransaction baseDB missingPatientInput 0).1 = baseDB :=
  ⟨rfl, createTransaction_failure_leaves_database_unchanged baseDB
    missingPatientInput 0 (.patientNotFound 99) rfl⟩

/-- C4: updating a transaction to the status it already has touches only the
transaction row's timestamp (the status write is value-preserving): no
medicine's stock changes, no stock movement is created, and the updated
transaction is returned. -/
theorem updateStatus_same_status_is_stock_noop
    (db : DB) (id : Nat) (s : PaymentStatus) (now : Nat) (t : Transaction)
    (ht : lookupTransaction db.transactions id = some t)
    (hs : t.payment_status = s) :
    (updateTransactionStatus db id s now).1
      = { db with transactions := setTransactionStatus db.transactions id s now } ∧
    (updateTransactionStatus db id s now).1.medicines = db.medicines ∧
    (updateTransactionStatus db id s now).1.stockMovements = db.stockMovements ∧
    (updateTransactionStatus db id s now).2
      = .ok { t with payment_status := s, updated_at := now } := by
  have hc1 : ¬ (s = PaymentStatus.cancelled ∧ t.payment_status ≠ PaymentStatus.cancelled) := by
    rintro ⟨h1, h2⟩; exact h2 (hs.trans h1)
  have hc2 : ¬ (t.payment_status = PaymentStatus.cancelled ∧ s ≠ PaymentStatus.cancelled) := by
    rintro ⟨h1, h2⟩; exact h2 (hs.symm.trans h1)
  have hbody : updateTransactionStatusBody db id s now
      = .ok ({ db with transactions := setTransactionStatus db.transactions id s now },
          { t with payment_status := s, updated_at := now }) := by
    simp only [updateTransactionStatusBody, ht, if_neg hc1, if_neg hc2]
    simp only [Except.bind, bind, pure]
    rw [lookupTransaction_setTransactionStatus_self, ht]
    rfl
  simp [updateTransactionStatus, hbody, dbTransaction]

/-- Witness for C4: re-posting `pending` on a pending transaction leaves
medicines and movements untouched. -/
theorem updateStatus_same_status_witness :
    (updateTransactionStatus dbWithTxn 10 .pending 9).1.medicines
      = dbWithTxn.medicines ∧
    (updateTransactionStatus dbWithTxn 10 .pending 9).1.stockMovements
      = dbWithTxn.stockMovements := by
  have h := updateStatus_same_status_is_stock_noop dbWithTxn 10 .pending 9
    pendingTxn rfl rfl
  exact ⟨h.2.1, h.2.2.1⟩

/-- C8: `adjustStock` rejects a negative target quantity, is a complete
no-op (no row written, no stock change) when the target equals the current
stock, and otherwise sets the stock to the target while recording exactly one
movement of magnitude `|delta|` in the direction of the sign of `delta`,
with a null `reference_id`. -/
theorem adjustStock_spec (db : DB) (medicineId : Nat) (newQuantity : ℤ)
    (notes : Option String) (now : Nat) (m : Medicine)
    (hm : lookupMedicine db.medicines medicineId = some m) :
    (newQuantity < 0 →
      adjustStock db medicineId newQuantity notes now
        = (db, .error .negativeStockQuantity)) ∧
    (0 ≤ newQuantity → newQuantity - m.stock_quantity = 0 →
      adjustStock db medicineId newQuantity notes now = (db, .ok ())) ∧
    (0 ≤ newQuantity → newQuantity - m.stock_quantity ≠ 0 →
      stockOf (adjustStock db medicineId newQuantity notes now).1 medicineId
        = some newQuantity ∧
      ∃ mv, (adjustStock db medicineId newQuantity notes now).1.stockMovements
          = db.stockMovements ++ [mv] ∧
        mv.medicine_id = medicineId ∧
        mv.reference_id = none ∧
        mv.quantity = abs (newQuantity - m.stock_quantity) ∧
        mv.movement_type = (if 0 < newQuantity - m.stock_quantity
          then MovementType.masuk else MovementType.keluar) ∧
        (adjustStock db medicineId newQuantity notes now).2 = .ok ()) := by
  refine ⟨?_, ?_, ?_⟩
  · intro hneg
    simp [adjustStock, adjustStockBody, hm, if_pos hneg, dbTransaction]
  · intro h0 hdelta
    simp [adjustStock, adjustStockBody, hm, if_neg (not_lt.mpr h0), hdelta,
      dbTransaction]
  · intro h0 hdelta
    have h1 : (adjustStock db medicineId newQuantity notes now).1.medicines
        = setMedicineStock db.medicines medicineId newQuantity now := by
      simp [adjustStock, adjustStockBody, hm, if_neg (not_lt.mpr h0), hdelta,
        dbTransaction]
    refine ⟨?_, ?_⟩
    · rw [stockOf, h1, lookupMedicine_setMedicineStock_self, hm]; rfl
    · refine ⟨{ id := db.nextMovementId, medicine_id := medicineId,
                movement_type := if 0 < newQuantity - m.stock_quantity
                  then MovementType.masuk else MovementType.keluar,
                quantity := abs (newQuantity - m.stock_quantity),
                reference_id := none,
                notes := some (notes.getD ("Stock adjustment: " ++
                  toString m.stock_quantity ++ " to " ++ toString newQuantity)) },
        ?_, rfl, rfl, rfl, rfl, ?_⟩ <;>
        simp [adjustStock, adjustStockBody, hm, if_neg (not_lt.mpr h0), hdelta,
          dbTransaction]

/-- Witness for C8: on `baseDB` (stock 5), a negative target errors, the same
value is a no-op, and target 2 sets the stock to 2. -/
theorem adjustStock_witness :
    adjustStock baseDB 1 (-1) none 7 = (baseDB, .error .negativeStockQuantity) ∧
    adjustStock baseDB 1 5 none 7 = (baseDB, .ok ()) ∧
    stockOf (adjustStock baseDB 1 2 none 7).1 1 = some 2 :=
  ⟨(adjustStock_spec baseDB 1 (-1) none 7 paracetamol rfl).1 (by decide),
   (adjustStock_spec baseDB 1 5 none 7 paracetamol rfl).2.1 (by decide) (by decide),
   ((adjustStock_spec baseDB 1 2 none 7 paracetamol rfl).2.2 (by decide) (by decide)).1⟩

/-- C9: `createStockMovement` fails with `NotFound` when the medicine is
missing; a `keluar` movement fails with `InsufficientStock` exactly when the
quantity exceeds the current stock (leaving the database unchanged) and on
success decrements the stock and appends exactly one movement row in the same
atomic unit; a `masuk` movement always succeeds for an existing medicine and
increments the stock, also appending exactly one row. -/
theorem createStockMovement_spec (db : DB) (input : CreateStockMovementInput)
    (now : Nat) :
    (lookupMedicine db.medicines input.medicine_id = none →
      createStockMovement db input now = (db, .error .medicineNotFound)) ∧
    (∀ m, lookupMedicine db.medicines input.medicine_id = some m →
      (input.movement_type = .keluar →
        ((createStockMovement db input now).2 = .error .insufficientStockMovement
          ↔ m.stock_quantity < input.quantity) ∧
        (m.stock_quantity < input.quantity →
          (createStockMovement db input now).1 = db) ∧
        (¬ m.stock_quantity < input.quantity →
          stockOf (createStockMovement db input now).1 input.medicine_id
            = some (m.stock_quantity - input.quantity) ∧
          ∃ mv, (createStockMovement db input now).2 = .ok mv ∧
            (createStockMovement db input now).1.stockMovements
              = db.stockMovements ++ [mv] ∧
            mv = { id := db.nextMovementId, medicine_id := input.medicine_id,
                   movement_type := input.movement_type, quantity := input.quantity,
                   reference_id := input.reference_id, notes := input.notes })) ∧
      (input.movement_type = .masuk →
        stockOf (createStockMovement db input now).1 input.medicine_id
          = some (m.stock_quantity + input.quantity) ∧
        ∃ mv, (createStockMovement db input now).2 = .ok mv ∧
          (createStockMovement db input now).1.stockMovements
            = db.stockMovements ++ [mv] ∧
          mv = { id := db.nextMovementId, medicine_id := input.medicine_id,
                 movement_type := input.movement_type, quantity := input.quantity,
                 reference_id := input.reference_id, notes := input.notes })) := by
  refine ⟨?_, ?_⟩
  · intro h
    simp [createStockMovement, createStockMovementBody, h, dbTransaction]
  · intro m hm
    refine ⟨?_, ?_⟩
    · intro hk
      by_cases hq : m.stock_quantity < input.quantity
      · have hres : createStockMovement db input now
            = (db, .error .insufficientStockMovement) := by
          simp [createStockMovement, createStockMovementBody, hm, hk, hq,
            dbTransaction, Except.bind, bind]
        refine ⟨by simp [hres, hq], fun _ => by simp [hres], fun habs => absurd hq habs⟩
      · have hmeds : (createStockMovement db input now).1.medicines
            = setMedicineStock db.medicines input.medicine_id
                (m.stock_quantity - input.quantity) now := by
          simp [createStockMovement, createStockMovementBody, hm, hk, hq,
            dbTransaction, Except.bind, bind]
        refine ⟨?_, fun habs => absurd habs hq, fun _ => ⟨?_, ?_⟩⟩
        · constructor
          · intro habs
            exfalso
            revert habs
            simp [createStockMovement, createStockMovementBody, hm, hk, hq,
              dbTransaction, Except.bind, bind]
          · intro habs; exact absurd habs hq
        · rw [stockOf, hmeds, lookupMedicine_setMedicineStock_self, hm]; rfl
        · refine ⟨_, ?_, ?_, rfl⟩ <;>
            simp [createStockMovement, createStockMovementBody, hm, hk, hq,
              dbTransaction, Except.bind, bind]
    · intro hk
      have hmeds : (createStockMovement db input now).1.medicines
          = setMedicineStock db.medicines input.medicine_id
              (m.stock_quantity + input.quantity) now := by
        simp [createStockMovement, createStockMovementBody, hm, hk,
          dbTransaction, Except.bind, bind]
      refine ⟨?_, ?_⟩
      · rw [stockOf, hmeds, lookupMedicine_setMedicineStock_self, hm]; rfl
      · refine ⟨_, ?_, ?_, rfl⟩ <;>
          simp [createStockMovement, createStockMovementBody, hm, hk,
            dbTransaction, Except.bind, bind]

/-- Witness for C9 on `baseDB` (stock 5): missing medicine, overdrawn
`keluar`, exact `keluar`, and a `masuk`. -/
theorem createStockMovement_witness :
    createStockMovement baseDB ⟨99, .masuk, 1, none, none⟩ 7
      = (baseDB, .error .medicineNotFound) ∧
    (createStockMovement baseDB ⟨1, .keluar, 6, none, none⟩ 7).2
      = .error .insufficientStockMovement ∧
    stockOf (createStockMovement baseDB ⟨1, .keluar, 5, none, none⟩ 7).1 1
      = some 0 ∧
    stockOf (createStockMovement baseDB ⟨1, .masuk, 4, none, none⟩ 7).1 1
      = some 9 :=
  ⟨(createStockMovement_spec baseDB ⟨99, .masuk, 1, none, none⟩ 7).1 rfl,
   (((createStockMovement_spec baseDB ⟨1, .keluar, 6, none, none⟩ 7).2
      paracetamol rfl).1 rfl).1.mpr (by decide),
   (((createStockMovement_spec baseDB ⟨1, .keluar, 5, none, none⟩ 7).2
      paracetamol rfl).1 rfl).2.2 (by decide) |>.1,
   ((createStockMovement_spec baseDB ⟨1, .masuk, 4, none, none⟩ 7).2
      paracetamol rfl).2 rfl |>.1⟩

/-- The `keluar` movements of a list (the ones the cancellation loop
reverses; `masuk` movements are skipped). -/
def keluarMovements : List StockMovement → List StockMovement
  | [] => []
  | mv :: rest =>
      match mv.movement_type with
      | .keluar => mv :: keluarMovements rest
      | .masuk => keluarMovements rest

/-- Total quantity a movement list attributes to one medicine. -/
def quantitySumFor : List StockMovement → Nat → ℤ
  | [], _ => 0
  | mv :: rest, mid =>
      (if mv.medicine_id = mid then mv.quantity else 0) + quantitySumFor rest mid

/-- Behaviour of the cancellation loop: when every `keluar` movement in the
selection references an existing medicine, the loop succeeds, touches neither
the transactions nor the line items, appends one `masuk` reversal per
`keluar` movement (same medicine, same quantity, reference to the
transaction) after the existing rows, and raises each medicine's stock by the
summed `keluar` quantity. -/
theorem reverseMovementsLoop_spec (refId now : Nat) (movs : List StockMovement) :
    ∀ (db : DB),
      (∀ mv ∈ movs, mv.movement_type = MovementType.keluar →
        (lookupMedicine db.medicines mv.medicine_id).isSome = true) →
      ∃ db', reverseMovementsLoop refId now db movs = .ok db' ∧
        db'.transactions = db.transactions ∧
        db'.transactionMedicines = db.transactionMedicines ∧
        (∃ news, db'.stockMovements = db.stockMovements ++ news ∧
          news.map (fun n => (n.medicine_id, n.movement_type, n.quantity, n.reference_id))
            = (keluarMovements movs).map
                (fun o => (o.medicine_id, MovementType.masuk, o.quantity, some refId))) ∧
        (∀ mid, stockOf db' mid
          = (stockOf db mid).map
              (fun q => q + quantitySumFor (keluarMovements movs) mid)) := by
  induction movs with
  | nil =>
      intro db hex
      refine ⟨db, rfl, rfl, rfl, ⟨[], by simp, rfl⟩, fun mid => ?_⟩
      cases h : stockOf db mid <;> simp [keluarMovements, quantitySumFor]
  | cons mv rest ih =>
      intro db hex
      cases htype : mv.movement_type with
      | masuk =>
          obtain ⟨db', hloop, htr, htm, ⟨news, hmv, hproj⟩, hstock⟩ :=
            ih db (fun mv' hmem h' => hex mv' (List.mem_cons_of_mem mv hmem) h')
          refine ⟨db', ?_, htr, htm, ⟨news, hmv, ?_⟩, fun mid => ?_⟩
          · simpa [reverseMovementsLoop, htype] using hloop
          · simpa [keluarMovements, htype] using hproj
          · simpa [keluarMovements, htype] using hstock mid
      | keluar =>
          have hsome := hex mv (List.mem_cons_self mv rest) htype
          obtain ⟨m, hm⟩ : ∃ m, lookupMedicine db.medicines mv.medicine_id = some m := by
            cases hlm : lookupMedicine db.medicines mv.medicine_id with
            | none => rw [hlm] at hsome; simp at hsome
            | some m => exact ⟨m, rfl⟩
          obtain ⟨db', hloop, htr, htm, ⟨news, hmv, hproj⟩, hstock⟩ :=
            ih { db with
                   medicines := setMedicineStock db.medicines mv.medicine_id
                     (m.stock_quantity + mv.quantity) now
                   stockMovements := db.stockMovements ++
                     [{ id := db.nextMovementId, medicine_id := mv.medicine_id,
                        movement_type := MovementType.masuk, quantity := mv.quantity,
                        reference_id := some refId,
                        notes := some ("Pembatalan transaksi #" ++ toString refId ++
                          " - pemulihan stok") }]
                   nextMovementId := db.nextMovementId + 1 }
              (fun mv' hmem h' => by
                simpa [isSome_setMedicineStock] using
                  hex mv' (List.mem_cons_of_mem mv hmem) h')
          refine ⟨db', ?_, htr, htm, ?_, fun mid => ?_⟩
          · simpa [reverseMovementsLoop, htype, hm] using hloop
          · refine ⟨{ id := db.nextMovementId, medicine_id := mv.medicine_id,
                      movement_type := MovementType.masuk, quantity := mv.quantity,
                      reference_id := some refId,
                      notes := some ("Pembatalan transaksi #" ++ toString refId ++
                        " - pemulihan stok") } :: news, ?_, ?_⟩
            · simpa using hmv
            · simp [keluarMovements, htype, hproj]
          · have hs := hstock mid
            by_cases hmid : mv.medicine_id = mid
            · subst hmid
              rw [hs]
              have : stockOf { db with
                  medicines := setMedicineStock db.medicines mv.medicine_id
                    (m.stock_quantity + mv.quantity) now
                  stockMovements := db.stockMovements ++
                    [{ id := db.nextMovementId, medicine_id := mv.medicine_id,
                       movement_type := MovementType.masuk, quantity := mv.quantity,
                       reference_id := some refId,
                       notes := some ("Pembatalan transaksi #" ++ toString refId ++
                         " - pemulihan stok") }]
                  nextMovementId := db.nextMovementId + 1 } mv.medicine_id
                  = some (m.stock_quantity + mv.quantity) := by
                simp only [stockOf]
                rw [lookupMedicine_setMedicineStock_self, hm]
                rfl
              rw [this]
              simp only [stockOf, hm, keluarMovements, htype, quantitySumFor, if_pos rfl]
              simp [add_assoc]
            · rw [hs]
              have : stockOf { db with
                  medicines := setMedicineStock db.medicines mv.medicine_id
                    (m.stock_quantity + mv.quantity) now
                  stockMovements := db.stockMovements ++
                    [{ id := db.nextMovementId, medicine_id := mv.medicine_id,
                       movement_type := MovementType.masuk, quantity := mv.quantity,
                       reference_id := some refId,
                       notes := some ("Pembatalan transaksi #" ++ toString refId ++
                         " - pemulihan stok") }]
                  nextMovementId := db.nextMovementId + 1 } mid = stockOf db mid := by
                simp only [stockOf]
                rw [lookupMedicine_setMedicineStock_ne _ _ _ _ _ (fun h => hmid h.symm)]
              rw [this]
              simp [keluarMovements, htype, quantitySumFor, hmid]

/-- C6: transitioning a non-cancelled transaction to `cancelled` appends,
for every `keluar` movement referencing the transaction, exactly one new
`masuk` movement with the same medicine, the same quantity and the same
reference (existing rows are only appended after, never mutated or deleted),
and raises each medicine's stock by the summed reversed quantity. -/
theorem updateStatus_cancel_appends_exact_reversals
    (db : DB) (id : Nat) (now : Nat) (t : Transaction)
    (ht : lookupTransaction db.transactions id = some t)
    (hne : t.payment_status ≠ PaymentStatus.cancelled)
    (hex : ∀ mv ∈ movementsWithReference db.stockMovements id,
      mv.movement_type = MovementType.keluar →
      (lookupMedicine db.medicines mv.medicine_id).isSome = true) :
    (updateTransactionStatus db id .cancelled now).2
      = .ok { t with payment_status := .cancelled, updated_at := now } ∧
    (∃ news, (updateTransactionStatus db id .cancelled now).1.stockMovements
        = db.stockMovements ++ news ∧
      news.map (fun n => (n.medicine_id, n.movement_type, n.quantity, n.reference_id))
        = (keluarMovements (movementsWithReference db.stockMovements id)).map
            (fun o => (o.medicine_id, MovementType.masuk, o.quantity, some id))) ∧
    (∀ mid, stockOf (updateTransactionStatus db id .cancelled now).1 mid
      = (stockOf db mid).map (fun q =>
          q + quantitySumFor
            (keluarMovements (movementsWithReference db.stockMovements id)) mid)) := by
  obtain ⟨db', hloop, htr, htm, hnews, hstock⟩ :=
    reverseMovementsLoop_spec id now (movementsWithReference db.stockMovements id) db hex
  have hc1 : (PaymentStatus.cancelled = PaymentStatus.cancelled ∧
      t.payment_status ≠ PaymentStatus.cancelled) := ⟨rfl, hne⟩
  have hc2 : ¬ (t.payment_status = PaymentStatus.cancelled ∧
      (PaymentStatus.cancelled : PaymentStatus) ≠ PaymentStatus.cancelled) := by
    rintro ⟨-, h2⟩; exact h2 rfl
  have hbody : updateTransactionStatusBody db id .cancelled now
      = .ok ({ db' with
                 transactions := setTransactionStatus db'.transactions id .cancelled now },
             { t with payment_status := .cancelled, updated_at := now }) := by
    simp [updateTransactionStatusBody, ht, hloop, Except.bind, bind, hne,
      lookupTransaction_setTransactionStatus_self, htr]
  refine ⟨?_, ?_, ?_⟩
  · simp [updateTransactionStatus, hbody, dbTransaction]
  · obtain ⟨news, hmv, hproj⟩ := hnews
    exact ⟨news, by simp [updateTransactionStatus, hbody, dbTransaction, hmv], hproj⟩
  · intro mid
    have hsame : stockOf (updateTransactionStatus db id .cancelled now).1 mid
        = stockOf db' mid := by
      simp [updateTransactionStatus, hbody, dbTransaction, stockOf]
    rw [hsame, hstock mid]

/-- The `keluar` movement written by the sale recorded in `dbAfterSale`. -/
def soldMovement : StockMovement where
  id := 20
  medicine_id := 1
  movement_type := .keluar
  quantity := 3
  reference_id := some 10
  notes := some "Medicine used in transaction #10"

/-- The medicine line item of the sale recorded in `dbAfterSale`. -/
def soldLineItem : TransactionMedicine where
  id := 40
  transaction_id := 10
  medicine_id := 1
  quantity := 3
  price_per_unit := 2
  total_price := 6

/-- `baseDB` after a sale of 3 units of the medicine in transaction 10:
stock 5 → 2, one `keluar` movement, one line item, pending header. -/
def dbAfterSale : DB :=
  { baseDB with
      medicines := [{ paracetamol with stock_quantity := 2, updated_at := 1 }]
      transactions := [pendingTxn]
      transactionMedicines := [soldLineItem]
      stockMovements := [soldMovement]
      nextTransactionId := 11
      nextMovementId := 21
      nextTransactionMedicineId := 41
      nextVisitId := 51 }

/-- Witness for C6: cancelling the sale restores the stock from 2 to 5. -/
theorem updateStatus_cancel_witness :
    (updateTransactionStatus dbAfterSale 10 .cancelled 2).2
      = .ok { pendingTxn with payment_status := .cancelled, updated_at := 2 } ∧
    stockOf (updateTransactionStatus dbAfterSale 10 .cancelled 2).1 1 = some 5 := by
  have h := updateStatus_cancel_appends_exact_reversals dbAfterSale 10 2 pendingTxn
    rfl (by decide) (by decide)
  exact ⟨h.1, by rw [h.2.2 1]; rfl⟩

/-- Behaviour of the reactivation loop on insufficient stock: if all line
items have positive quantities and existing medicines, the running stock
never exceeds the reference stock `db0`, and some line item's quantity
exceeds its medicine's stock in `db0`, then the loop throws
`InsufficientStock` for some medicine. -/
theorem redeductLoop_fails (refId now : Nat) (items : List TransactionMedicine) :
    ∀ (db0 db : DB),
      (∀ it ∈ items, 0 < it.quantity) →
      (∀ it ∈ items, (lookupMedicine db.medicines it.medicine_id).isSome = true) →
      (∀ mid q0 q, stockOf db0 mid = some q0 → stockOf db mid = some q → q ≤ q0) →
      (∃ it ∈ items, ∃ m0, lookupMedicine db0.medicines it.medicine_id = some m0 ∧
        m0.stock_quantity < it.quantity) →
      ∃ mid, redeductLoop refId now db items
        = .error (.insufficientStockReactivation mid) := by
  induction items with
  | nil =>
      intro db0 db hpos hex hle hwit
      obtain ⟨it, hmem, -⟩ := hwit
      simp at hmem
  | cons it rest ih =>
      intro db0 db hpos hex hle hwit
      have hsome := hex it (List.mem_cons_self it rest)
      obtain ⟨m, hm⟩ : ∃ m, lookupMedicine db.medicines it.medicine_id = some m := by
        cases hlm : lookupMedicine db.medicines it.medicine_id with
        | none => rw [hlm] at hsome; simp at hsome
        | some m => exact ⟨m, rfl⟩
      by_cases hlt : m.stock_quantity < it.quantity
      · exact ⟨it.medicine_id, by simp [redeductLoop, hm, hlt]⟩
      · have hq0 : 0 < it.quantity := hpos it (List.mem_cons_self it rest)
        have hwit' : ∃ item ∈ rest, ∃ m0,
            lookupMedicine db0.medicines item.medicine_id = some m0 ∧
            m0.stock_quantity < item.quantity := by
          obtain ⟨w, hmem, m0, hm0, hlt0⟩ := hwit
          rcases List.mem_cons.mp hmem with hweq | hwrest
          · exfalso
            subst hweq
            have hle1 : m.stock_quantity ≤ m0.stock_quantity :=
              hle w.medicine_id m0.stock_quantity m.stock_quantity
                (by simp [stockOf, hm0]) (by simp [stockOf, hm])
            exact hlt (lt_of_le_of_lt hle1 hlt0)
          · exact ⟨w, hwrest, m0, hm0, hlt0⟩
        obtain ⟨mid, herr⟩ := ih db0
          { db with
              medicines := setMedicineStock db.medicines it.medicine_id
                (m.stock_quantity - it.quantity) now
              stockMovements := db.stockMovements ++
                [{ id := db.nextMovementId, medicine_id := it.medicine_id,
                   movement_type := MovementType.keluar, quantity := it.quantity,
                   reference_id := some refId,
                   notes := some ("Reaktivasi transaksi #" ++ toString refId ++
                     " - pengurangan stok") }]
              nextMovementId := db.nextMovementId + 1 }
          (fun i himem => hpos i (List.mem_cons_of_mem it himem))
          (fun i himem => by
            simpa [isSome_setMedicineStock] using hex i (List.mem_cons_of_mem it himem))
          (fun mid q0 q hq0' hq' => by
            by_cases hmid : mid = it.medicine_id
            · subst hmid
              rw [stockOf] at hq'
              rw [lookupMedicine_setMedicineStock_self, hm] at hq'
              simp at hq'
              have hms : m.stock_quantity ≤ q0 :=
                hle it.medicine_id q0 m.stock_quantity hq0' (by simp [stockOf, hm])
              omega
            · have : stockOf db mid = some q := by
                rw [stockOf] at hq' ⊢
                rwa [lookupMedicine_setMedicineStock_ne _ _ _ _ _ hmid] at hq'
              exact hle mid q0 q hq0' this)
          hwit'
        exact ⟨mid, by simpa [redeductLoop, hm, hlt] using herr⟩

/-- C7: switching a cancelled transaction back to an active status fails
with `InsufficientStock` when any of its medicine line items exceeds the
medicine's current stock (all line items having positive quantities and
existing medicines), and the whole call is rolled back: the status, every
stock level and the movement log are unchanged. -/
theorem updateStatus_reactivation_insufficient_stock_aborts
    (db : DB) (id : Nat) (s : PaymentStatus) (now : Nat) (t : Transaction)
    (ht : lookupTransaction db.transactions id = some t)
    (hc : t.payment_status = PaymentStatus.cancelled)
    (hs : s ≠ PaymentStatus.cancelled)
    (hpos : ∀ it ∈ lineItemsOfTransaction db.transactionMedicines id, 0 < it.quantity)
    (hex : ∀ it ∈ lineItemsOfTransaction db.transactionMedicines id,
      (lookupMedicine db.medicines it.medicine_id).isSome = true)
    (hwit : ∃ it ∈ lineItemsOfTransaction db.transactionMedicines id,
      ∃ m, lookupMedicine db.medicines it.medicine_id = some m ∧
        m.stock_quantity < it.quantity) :
    (∃ mid, (updateTransactionStatus db id s now).2
        = .error (.insufficientStockReactivation mid)) ∧
    (updateTransactionStatus db id s now).1 = db := by
  obtain ⟨mid, herr⟩ := redeductLoop_fails id now
    (lineItemsOfTransaction db.transactionMedicines id) db db hpos hex
    (fun mid q0 q h0 h1 => by rw [h0] at h1; exact le_of_eq (Option.some_injective _ h1.symm))
    hwit
  have hsnd : (updateTransactionStatus db id s now).2
      = .error (.insufficientStockReactivation mid) := by
    simp [updateTransactionStatus, updateTransactionStatusBody, ht, hs, hc, herr,
      Except.bind, bind, dbTransaction]
  exact ⟨⟨mid, hsnd⟩, dbTransaction_error_fst db _ _ hsnd⟩

/-- The transaction of `dbAfterSale` once cancelled. -/
def cancelledTxn : Transaction :=
  { pendingTxn with payment_status := .cancelled, updated_at := 2 }

/-- A cancelled sale whose medicine now has stock 1 (< line item's 3). -/
def dbCancelledLowStock : DB :=
  { dbAfterSale with
      medicines := [{ paracetamol with stock_quantity := 1, updated_at := 3 }]
      transactions := [cancelledTxn] }

/-- Witness for C7: reactivating with stock 1 against a line item of 3
fails and leaves the database untouched. -/
theorem updateStatus_reactivation_witness :
    (∃ mid, (updateTransactionStatus dbCancelledLowStock 10 .paid 4).2
        = .error (.insufficientStockReactivation mid)) ∧
    (updateTransactionStatus dbCancelledLowStock 10 .paid 4).1
      = dbCancelledLowStock :=
  updateStatus_reactivation_insufficient_stock_aborts dbCancelledLowStock 10 .paid 4
    cancelledTxn rfl rfl (by decide) (by decide) (by decide)
    ⟨soldLineItem, by decide,
      { paracetamol with stock_quantity := 1, updated_at := 3 }, rfl, by decide⟩

/-- Step 6 writes one line-item row per validated service item; the rows'
totals sum to exactly what the validation pass accumulated, each row
snapshots `price × quantity`, and no other table is touched. -/
theorem insertServiceItemsLoop_total (txId : Nat) (items : List ServiceItem) :
    ∀ (dbV dbI : DB) (acc T : ℚ),
      serviceTotalLoop dbV acc items = .ok T →
      dbI.services = dbV.services →
      ∃ db2 rows, insertServiceItemsLoop txId dbI items = .ok db2 ∧
        db2.transactionServices = dbI.transactionServices ++ rows ∧
        db2.services = dbI.services ∧
        db2.medicines = dbI.medicines ∧
        db2.transactionMedicines = dbI.transactionMedicines ∧
        (∀ r ∈ rows, r.transaction_id = txId ∧
          r.total_price = r.price_per_unit * (r.quantity : ℚ)) ∧
        (rows.map TransactionService.total_price).sum = T - acc := by
  induction items with
  | nil =>
      intro dbV dbI acc T hT hsvc
      have hacc : acc = T := by
        simpa [serviceTotalLoop] using hT
      exact ⟨dbI, [], rfl, by simp, rfl, rfl, rfl, by simp, by simp [hacc]⟩
  | cons item rest ih =>
      intro dbV dbI acc T hT hsvc
      cases hsv : lookupService dbV.services item.service_id with
      | none => simp [serviceTotalLoop, hsv] at hT
      | some s =>
          by_cases hact : s.is_active = true
          · simp only [serviceTotalLoop, hsv, hact, if_true] at hT
            obtain ⟨db2, rows, hloop, htS, hsvc2, hmeds2, htM2, hrows, hsum⟩ :=
              ih dbV
                { dbI with
                    transactionServices := dbI.transactionServices ++
                      [{ id := dbI.nextTransactionServiceId, transaction_id := txId,
                         service_id := item.service_id, quantity := item.quantity,
                         price_per_unit := s.price,
                         total_price := s.price * (item.quantity : ℚ) }]
                    nextTransactionServiceId := dbI.nextTransactionServiceId + 1 }
                (acc + s.price * (item.quantity : ℚ)) T hT hsvc
            refine ⟨db2,
              { id := dbI.nextTransactionServiceId, transaction_id := txId,
                service_id := item.service_id, quantity := item.quantity,
                price_per_unit := s.price,
                total_price := s.price * (item.quantity : ℚ) } :: rows,
              ?_, ?_, hsvc2, hmeds2, htM2, ?_, ?_⟩
            · have hsv' : lookupService dbI.services item.service_id = some s := by
                rw [hsvc]; exact hsv
              simp only [insertServiceItemsLoop, hsv']
              exact hloop
            · simpa using htS
            · intro r hr
              rcases List.mem_cons.mp hr with hre | hrr
              · subst hre; exact ⟨rfl, rfl⟩
              · exact hrows r hrr
            · simp only [List.map_cons, List.sum_cons, hsum]
              ring
          · simp [serviceTotalLoop, hsv, hact] at hT

/-- Step 7 writes one line-item row per validated medicine item; the rows'
totals sum to exactly what the validation pass accumulated (prices are
re-read from the evolving database but stock updates never change a price),
each row snapshots `price × quantity`, and the service line items and visits
are untouched. -/
theorem insertMedicineItemsLoop_total (txId now : Nat) (items : List MedicineItem) :
    ∀ (dbV dbI : DB) (acc T : ℚ),
      medicineTotalLoop dbV acc items = .ok T →
      (∀ i, (lookupMedicine dbI.medicines i).map Medicine.price_per_unit
          = (lookupMedicine dbV.medicines i).map Medicine.price_per_unit) →
      ∃ db2 rows, insertMedicineItemsLoop txId now dbI items = .ok db2 ∧
        db2.transactionMedicines = dbI.transactionMedicines ++ rows ∧
        db2.transactionServices = dbI.transactionServices ∧
        db2.patientVisits = dbI.patientVisits ∧
        (∀ r ∈ rows, r.transaction_id = txId ∧
          r.total_price = r.price_per_unit * (r.quantity : ℚ)) ∧
        (rows.map TransactionMedicine.total_price).sum = T - acc := by
  induction items with
  | nil =>
      intro dbV dbI acc T hT hprice
      have hacc : acc = T := by
        simpa [medicineTotalLoop] using hT
      exact ⟨dbI, [], rfl, by simp, rfl, rfl, by simp, by simp [hacc]⟩
  | cons item rest ih =>
      intro dbV dbI acc T hT hprice
      cases hmv : lookupMedicine dbV.medicines item.medicine_id with
      | none => simp [medicineTotalLoop, hmv] at hT
      | some m =>
          by_cases hstk : m.stock_quantity < item.quantity
          · simp [medicineTotalLoop, hmv, hstk] at hT
          · simp only [medicineTotalLoop, hmv, hstk, if_false, ite_false] at hT
            obtain ⟨m2, hm2, hm2p⟩ : ∃ m2,
                lookupMedicine dbI.medicines item.medicine_id = some m2 ∧
                m2.price_per_unit = m.price_per_unit := by
              have := hprice item.medicine_id
              rw [hmv] at this
              cases hlm : lookupMedicine dbI.medicines item.medicine_id with
              | none => rw [hlm] at this; simp at this
              | some m2 =>
                  rw [hlm] at this
                  simp only [Option.map_some'] at this
                  exact ⟨m2, rfl, Option.some_injective _ this⟩
            obtain ⟨db2, rows, hloop, htM, htS, hpv, hrows, hsum⟩ :=
              ih dbV
                { dbI with
                    transactionMedicines := dbI.transactionMedicines ++
                      [{ id := dbI.nextTransactionMedicineId, transaction_id := txId,
                         medicine_id := item.medicine_id, quantity := item.quantity,
                         price_per_unit := m2.price_per_unit,
                         total_price := m2.price_per_unit * (item.quantity : ℚ) }]
                    nextTransactionMedicineId := dbI.nextTransactionMedicineId + 1
                    medicines := subtractMedicineStock dbI.medicines item.medicine_id
                      item.quantity now
                    stockMovements := dbI.stockMovements ++
                      [{ id := dbI.nextMovementId, medicine_id := item.medicine_id,
                         movement_type := MovementType.keluar, quantity := item.quantity,
                         reference_id := some txId,
                         notes := some ("Medicine used in transaction #" ++ toString txId) }]
                    nextMovementId := dbI.nextMovementId + 1 }
                (acc + m.price_per_unit * (item.quantity : ℚ)) T hT
                (fun i => by
                  simp only [price_subtractMedicineStock]
                  exact hprice i)
            refine ⟨db2,
              { id := dbI.nextTransactionMedicineId, transaction_id := txId,
                medicine_id := item.medicine_id, quantity := item.quantity,
                price_per_unit := m2.price_per_unit,
                total_price := m2.price_per_unit * (item.quantity : ℚ) } :: rows,
              ?_, ?_, htS, hpv, ?_, ?_⟩
            · simp only [insertMedicineItemsLoop, hm2]
              exact hloop
            · simpa using htM
            · intro r hr
              rcases List.mem_cons.mp hr with hre | hrr
              · subst hre; exact ⟨rfl, rfl⟩
              · exact hrows r hrr
            · simp only [List.map_cons, List.sum_cons, hsum, hm2p]
              ring

/-- Shape of a successful `createTransaction` body: when the patient exists
and both validation passes succeed, the body commits, the header's total is
`serviceTotal + medicineTotal`, and the two line-item tables are extended by
rows whose totals sum to exactly those two accumulators. -/
theorem createTransactionBody_ok_shape (db : DB) (input : CreateTransactionInput)
    (now : Nat) (pat : Patient) (sT mT : ℚ)
    (hp : lookupPatient db.patients input.patient_id = some pat)
    (hS : serviceTotalLoop db 0 input.services = .ok sT)
    (hM : medicineTotalLoop db 0 input.medicines = .ok mT) :
    ∃ db4 newS newM,
      createTransactionBody db input now
        = .ok (db4, { id := db.nextTransactionId, patient_id := input.patient_id,
                      total_amount := sT + mT, payment_method := input.payment_method,
                      payment_status := input.payment_status, notes := input.notes,
                      created_at := now, updated_at := now }) ∧
      db4.transactionServices = db.transactionServices ++ newS ∧
      db4.transactionMedicines = db.transactionMedicines ++ newM ∧
      (∀ r ∈ newS, r.transaction_id = db.nextTransactionId ∧
        r.total_price = r.price_per_unit * (r.quantity : ℚ)) ∧
      (∀ r ∈ newM, r.transaction_id = db.nextTransactionId ∧
        r.total_price = r.price_per_unit * (r.quantity : ℚ)) ∧
      (newS.map TransactionService.total_price).sum = sT ∧
      (newM.map TransactionMedicine.total_price).sum = mT := by
  obtain ⟨db2, newS, hins, htS, hsvc2, hmeds2, htM2, hrowsS, hsumS⟩ :=
    insertServiceItemsLoop_total db.nextTransactionId input.services db
      { db with
          transactions := db.transactions ++
            [{ id := db.nextTransactionId, patient_id := input.patient_id,
               total_amount := sT + mT, payment_method := input.payment_method,
               payment_status := input.payment_status, notes := input.notes,
               created_at := now, updated_at := now }]
          nextTransactionId := db.nextTransactionId + 1 }
      0 sT hS rfl
  obtain ⟨db3, newM, hinsM, htM3, htS3, hpv3, hrowsM, hsumM⟩ :=
    insertMedicineItemsLoop_total db.nextTransactionId now input.medicines db db2
      0 mT hM (fun i => by rw [hmeds2])
  refine ⟨{ db3 with
              patientVisits := db3.patientVisits ++
                [{ id := db3.nextVisitId, patient_id := input.patient_id,
                   transaction_id := some db.nextTransactionId, visit_date := now,
                   notes := some ("Transaction #" ++ toString db.nextTransactionId) }]
              nextVisitId := db3.nextVisitId + 1 },
    newS, newM, ?_, ?_, ?_, hrowsS, hrowsM, by rw [hsumS, sub_zero],
    by rw [hsumM, sub_zero]⟩
  · simp only [createTransactionBody, hp, Except.bind, bind, hS, hM, hins, hinsM]
  · simp [htS3, htS]
  · simp [htM3, htM2]

/-- C5: on every successful `createTransaction`, the persisted header's
`total_amount` equals the sum of the totals of the freshly inserted line
items (service plus medicine), each of which snapshots
`price_per_unit × quantity` at creation time. -/
theorem createTransaction_total_equals_line_item_sum
    (db : DB) (input : CreateTransactionInput) (now : Nat) (db' : DB)
    (txn : Transaction)
    (h : createTransaction db input now = (db', .ok txn)) :
    ∃ newS newM,
      db'.transactionServices = db.transactionServices ++ newS ∧
      db'.transactionMedicines = db.transactionMedicines ++ newM ∧
      (∀ r ∈ newS, r.transaction_id = txn.id ∧
        r.total_price = r.price_per_unit * (r.quantity : ℚ)) ∧
      (∀ r ∈ newM, r.transaction_id = txn.id ∧
        r.total_price = r.price_per_unit * (r.quantity : ℚ)) ∧
      txn.total_amount = (newS.map TransactionService.total_price).sum
        + (newM.map TransactionMedicine.total_price).sum := by
  rw [createTransaction] at h
  cases hb : createTransactionBody db input now with
  | error e =>
      rw [hb] at h
      simp [dbTransaction] at h
  | ok p =>
      obtain ⟨dbo, txo⟩ := p
      rw [hb] at h
      simp only [dbTransaction, Prod.mk.injEq, Except.ok.injEq] at h
      obtain ⟨h1, h2⟩ := h
      subst h1
      subst h2
      cases hp : lookupPatient db.patients input.patient_id with
      | none => simp [createTransactionBody, hp] at hb
      | some pat =>
          cases hS : serviceTotalLoop db 0 input.services with
          | error e =>
              simp [createTransactionBody, hp, hS, Except.bind, bind] at hb
          | ok sT =>
              cases hM : medicineTotalLoop db 0 input.medicines with
              | error e =>
                  simp [createTransactionBody, hp, hS, hM, Except.bind, bind] at hb
              | ok mT =>
                  obtain ⟨db4, newS, newM, hb2, htS, htM, hrS, hrM, hsS, hsM⟩ :=
                    createTransactionBody_ok_shape db input now pat sT mT hp hS hM
                  rw [hb2] at hb
                  simp only [Except.ok.injEq, Prod.mk.injEq] at hb
                  obtain ⟨hdb, htx⟩ := hb
                  subst hdb
                  subst htx
                  refine ⟨newS, newM, htS, htM, ?_, ?_, ?_⟩
                  · intro r hr; simpa using hrS r hr
                  · intro r hr; simpa using hrM r hr
                  · simp [hsS, hsM]

/-- A sale of one unit of the service (price 50) and three units of the
medicine (price 2 each): total 56. -/
def mixedInput : CreateTransactionInput where
  patient_id := 1
  payment_method := .tunai
  payment_status := .pending
  notes := none
  services := [⟨3, 1⟩]
  medicines := [⟨1, 3⟩]

/-- The header persisted for `mixedInput` on `baseDB`. -/
def mixedTxn : Transaction where
  id := 10
  patient_id := 1
  total_amount := 56
  payment_method := .tunai
  payment_status := .pending
  notes := none
  created_at := 1
  updated_at := 1

/-- Witness for C5: the concrete sale's header total (56) equals the sum of
its two line-item totals (50 + 6). -/
theorem createTransaction_total_witness :
    ∃ newS newM,
      (createTransaction baseDB mixedInput 1).1.transactionServices
        = baseDB.transactionServices ++ newS ∧
      (createTransaction baseDB mixedInput 1).1.transactionMedicines
        = baseDB.transactionMedicines ++ newM ∧
      (∀ r ∈ newS, r.transaction_id = mixedTxn.id ∧
        r.total_price = r.price_per_unit * (r.quantity : ℚ)) ∧
      (∀ r ∈ newM, r.transaction_id = mixedTxn.id ∧
        r.total_price = r.price_per_unit * (r.quantity : ℚ)) ∧
      mixedTxn.total_amount = (newS.map TransactionService.total_price).sum
        + (newM.map TransactionMedicine.total_price).sum :=
  createTransaction_total_equals_line_item_sum baseDB mixedInput 1
    (createTransaction baseDB mixedInput 1).1 mixedTxn (by
      norm_num [createTransaction, createTransactionBody, serviceTotalLoop,
        medicineTotalLoop, insertServiceItemsLoop, insertMedicineItemsLoop,
        lookupPatient, lookupService, lookupMedicine, subtractMedicineStock,
        dbTransaction, Except.bind, bind, baseDB, mixedInput, mixedTxn,
        paracetamol])

/-! ## The pending → paid → cancelled → paid → cancelled cycle scenario -/

/-- Scenario medicine: id 1, price `p`, stock `S`. -/
def cycleMed (S : ℤ) (p : ℚ) : Medicine where
  id := 1
  name := "M"
  price_per_unit := p
  stock_quantity := S
  updated_at := 0

/-- Scenario database: one patient, the medicine, empty logs. -/
def cycleDB (S : ℤ) (p : ℚ) : DB where
  patients := [{ id := 1 }]
  services := []
  medicines := [cycleMed S p]
  transactions := []
  transactionServices := []
  transactionMedicines := []
  stockMovements := []
  patientVisits := []
  nextTransactionId := 10
  nextMovementId := 20
  nextTransactionServiceId := 30
  nextTransactionMedicineId := 40
  nextVisitId := 51

/-- Scenario input: a medicines-only sale of `Q` units of medicine 1. -/
def cycleInput (Q : ℤ) : CreateTransactionInput where
  patient_id := 1
  payment_method := .tunai
  payment_status := .pending
  notes := none
  services := []
  medicines := [⟨1, Q⟩]

/-- The header the scenario sale persists. -/
def cycleTxn (Q : ℤ) (p : ℚ) : Transaction where
  id := 10
  patient_id := 1
  total_amount := p * (Q : ℚ)
  payment_method := .tunai
  payment_status := .pending
  notes := none
  created_at := 1
  updated_at := 1

/-- The `keluar` movement the scenario sale records. -/
def saleMv (Q : ℤ) : StockMovement where
  id := 20
  medicine_id := 1
  movement_type := .keluar
  quantity := Q
  reference_id := some 10
  notes := some ("Medicine used in transaction #" ++ toString 10)

/-- The medicine line item the scenario sale records. -/
def saleRow (Q : ℤ) (p : ℚ) : TransactionMedicine where
  id := 40
  transaction_id := 10
  medicine_id := 1
  quantity := Q
  price_per_unit := p
  total_price := p * (Q : ℚ)

/-- The visit row the scenario sale records. -/
def cycleVisit : PatientVisit where
  id := 51
  patient_id := 1
  transaction_id := some 10
  visit_date := 1
  notes := some ("Transaction #" ++ toString 10)

/-- The database after the scenario sale (stock `S - Q`). -/
def cycleDB1 (S Q : ℤ) (p : ℚ) : DB where
  patients := [{ id := 1 }]
  services := []
  medicines := [{ cycleMed S p with stock_quantity := S - Q, updated_at := 1 }]
  transactions := [cycleTxn Q p]
  transactionServices := []
  transactionMedicines := [saleRow Q p]
  stockMovements := [saleMv Q]
  patientVisits := [cycleVisit]
  nextTransactionId := 11
  nextMovementId := 21
  nextTransactionServiceId := 30
  nextTransactionMedicineId := 41
  nextVisitId := 52

/-- Step 1 of the cycle: the sale debits `Q` and records one `keluar`
movement referencing transaction 10. -/
theorem cycle_step1 (S Q : ℤ) (p : ℚ) (hQS : ¬ S < Q) :
    createTransaction (cycleDB S p) (cycleInput Q) 1
      = (cycleDB1 S Q p, .ok (cycleTxn Q p)) := by
  simp [createTransaction, createTransactionBody, dbTransaction, serviceTotalLoop,
    medicineTotalLoop, insertServiceItemsLoop, insertMedicineItemsLoop,
    lookupPatient, lookupMedicine, subtractMedicineStock, cycleDB, cycleInput,
    cycleMed, cycleDB1, cycleTxn, saleRow, saleMv, cycleVisit, Except.bind, bind, hQS]

/-- The `masuk` reversal recorded when the scenario sale is cancelled. -/
def restoreMv (Q : ℤ) : StockMovement where
  id := 21
  medicine_id := 1
  movement_type := .masuk
  quantity := Q
  reference_id := some 10
  notes := some ("Pembatalan transaksi #" ++ toString 10 ++ " - pemulihan stok")

/-- The database after cancelling the scenario sale (stock back to `S`). -/
def cycleDB2 (S Q : ℤ) (p : ℚ) : DB where
  patients := [{ id := 1 }]
  services := []
  medicines := [{ cycleMed S p with stock_quantity := S, updated_at := 2 }]
  transactions := [{ cycleTxn Q p with payment_status := .cancelled, updated_at := 2 }]
  transactionServices := []
  transactionMedicines := [saleRow Q p]
  stockMovements := [saleMv Q, restoreMv Q]
  patientVisits := [cycleVisit]
  nextTransactionId := 11
  nextMovementId := 22
  nextTransactionServiceId := 30
  nextTransactionMedicineId := 41
  nextVisitId := 52

/-- Step 2 of the cycle: cancelling restores the stock to `S` and appends a
`masuk` reversal. -/
theorem cycle_step2 (S Q : ℤ) (p : ℚ) :
    updateTransactionStatus (cycleDB1 S Q p) 10 .cancelled 2
      = (cycleDB2 S Q p,
         .ok { cycleTxn Q p with payment_status := .cancelled, updated_at := 2 }) := by
  simp [updateTransactionStatus, updateTransactionStatusBody, dbTransaction,
    lookupTransaction, movementsWithReference, reverseMovementsLoop, lookupMedicine,
    setMedicineStock, setTransactionStatus, cycleDB1, cycleDB2, cycleMed, cycleTxn,
    saleMv, saleRow, restoreMv, cycleVisit, Except.bind, bind]

/-- The `keluar` re-deduction recorded when the cancelled sale is re-paid. -/
def redeductMv (Q : ℤ) : StockMovement where
  id := 22
  medicine_id := 1
  movement_type := .keluar
  quantity := Q
  reference_id := some 10
  notes := some ("Reaktivasi transaksi #" ++ toString 10 ++ " - pengurangan stok")

/-- The database after re-paying the cancelled sale (stock `S - Q` again). -/
def cycleDB3 (S Q : ℤ) (p : ℚ) : DB where
  patients := [{ id := 1 }]
  services := []
  medicines := [{ cycleMed S p with stock_quantity := S - Q, updated_at := 3 }]
  transactions := [{ cycleTxn Q p with payment_status := .paid, updated_at := 3 }]
  transactionServices := []
  transactionMedicines := [saleRow Q p]
  stockMovements := [saleMv Q, restoreMv Q, redeductMv Q]
  patientVisits := [cycleVisit]
  nextTransactionId := 11
  nextMovementId := 23
  nextTransactionServiceId := 30
  nextTransactionMedicineId := 41
  nextVisitId := 52

/-- Step 3 of the cycle: re-paying re-deducts `Q` and appends a second
`keluar` movement with the same `reference_id`. -/
theorem cycle_step3 (S Q : ℤ) (p : ℚ) (hQS : ¬ S < Q) :
    updateTransactionStatus (cycleDB2 S Q p) 10 .paid 3
      = (cycleDB3 S Q p,
         .ok { cycleTxn Q p with payment_status := .paid, updated_at := 3 }) := by
  simp [updateTransactionStatus, updateTransactionStatusBody, dbTransaction,
    lookupTransaction, lineItemsOfTransaction, redeductLoop, lookupMedicine,
    setMedicineStock, setTransactionStatus, cycleDB2, cycleDB3, cycleMed, cycleTxn,
    saleMv, saleRow, restoreMv, redeductMv, cycleVisit, Except.bind, bind, hQS]

/-- The database after the second cancellation: both `keluar` movements are
reversed, so the stock ends at `S + Q`. -/
def cycleDB4 (S Q : ℤ) (p : ℚ) : DB where
  patients := [{ id := 1 }]
  services := []
  medicines := [{ cycleMed S p with stock_quantity := S + Q, updated_at := 4 }]
  transactions := [{ cycleTxn Q p with payment_status := .cancelled, updated_at := 4 }]
  transactionServices := []
  transactionMedicines := [saleRow Q p]
  stockMovements := [saleMv Q, restoreMv Q, redeductMv Q,
    { restoreMv Q with id := 23 }, { restoreMv Q with id := 24 }]
  patientVisits := [cycleVisit]
  nextTransactionId := 11
  nextMovementId := 25
  nextTransactionServiceId := 30
  nextTransactionMedicineId := 41
  nextVisitId := 52

/-- Step 4 of the cycle: a second cancellation reverses both `keluar`
movements referencing the transaction, adding `2 Q` to the stock. -/
theorem cycle_step4 (S Q : ℤ) (p : ℚ) :
    updateTransactionStatus (cycleDB3 S Q p) 10 .cancelled 4
      = (cycleDB4 S Q p,
         .ok { cycleTxn Q p with payment_status := .cancelled, updated_at := 4 }) := by
  simp [updateTransactionStatus, updateTransactionStatusBody, dbTransaction,
    lookupTransaction, movementsWithReference, reverseMovementsLoop, lookupMedicine,
    setMedicineStock, setTransactionStatus, cycleDB3, cycleDB4, cycleMed, cycleTxn,
    saleMv, saleRow, restoreMv, redeductMv, cycleVisit, Except.bind, bind]

/-- C3: for the sale that debits medicine 1 by `Q` (stock `S`, `0 < Q ≤ S`),
cancelling restores the stock to its pre-debit value `S`, and re-paying
re-debits it back to the post-debit value `S - Q`. -/
theorem updateStatus_cancel_then_paid_roundtrip (S Q : ℤ) (p : ℚ)
    (_hQ : 0 < Q) (hQS : Q ≤ S) :
    (createTransaction (cycleDB S p) (cycleInput Q) 1).2 = .ok (cycleTxn Q p) ∧
    stockOf (createTransaction (cycleDB S p) (cycleInput Q) 1).1 1 = some (S - Q) ∧
    stockOf (updateTransactionStatus
        (createTransaction (cycleDB S p) (cycleInput Q) 1).1 10 .cancelled 2).1 1
      = some S ∧
    stockOf (updateTransactionStatus
        (updateTransactionStatus
          (createTransaction (cycleDB S p) (cycleInput Q) 1).1 10 .cancelled 2).1
        10 .paid 3).1 1
      = some (S - Q) := by
  have h1 := cycle_step1 S Q p (not_lt.mpr hQS)
  have h2 := cycle_step2 S Q p
  have h3 := cycle_step3 S Q p (not_lt.mpr hQS)
  simp only [h1, h2, h3]
  simp [stockOf, lookupMedicine, cycleDB1, cycleDB2, cycleDB3, cycleMed]

/-- Witness for C3 at `S = 5`, `Q = 3`, `p = 2`. -/
theorem updateStatus_cancel_then_paid_roundtrip_witness :
    (createTransaction (cycleDB 5 2) (cycleInput 3) 1).2 = .ok (cycleTxn 3 2) ∧
    stockOf (createTransaction (cycleDB 5 2) (cycleInput 3) 1).1 1 = some 2 ∧
    stockOf (updateTransactionStatus
        (createTransaction (cycleDB 5 2) (cycleInput 3) 1).1 10 .cancelled 2).1 1
      = some 5 ∧
    stockOf (updateTransactionStatus
        (updateTransactionStatus
          (createTransaction (cycleDB 5 2) (cycleInput 3) 1).1 10 .cancelled 2).1
        10 .paid 3).1 1
      = some 2 := by
  have h := updateStatus_cancel_then_paid_roundtrip 5 3 2 (by decide) (by decide)
  norm_num at h
  exact h

/-- C10: on a transition into `cancelled`, every `keluar` movement whose
`reference_id` is the transaction — including the re-deduction recorded by an
earlier reactivation — is reversed, so after a cancel → re-pay cycle the
second cancellation raises the stock by the sum `Q + Q` of both `keluar`
movements (from `S - Q` to `S + Q`), not only by the original debit `Q`. -/
theorem updateStatus_second_cancel_restores_sum_of_outs (S Q : ℤ) (p : ℚ)
    (_hQ : 0 < Q) (hQS : Q ≤ S) :
    ((keluarMovements (movementsWithReference
        (updateTransactionStatus
          (updateTransactionStatus
            (createTransaction (cycleDB S p) (cycleInput Q) 1).1 10 .cancelled 2).1
          10 .paid 3).1.stockMovements 10)).map StockMovement.quantity = [Q, Q]) ∧
    stockOf (updateTransactionStatus
        (updateTransactionStatus
          (createTransaction (cycleDB S p) (cycleInput Q) 1).1 10 .cancelled 2).1
        10 .paid 3).1 1 = some (S - Q) ∧
    stockOf (updateTransactionStatus
        (updateTransactionStatus
          (updateTransactionStatus
            (createTransaction (cycleDB S p) (cycleInput Q) 1).1 10 .cancelled 2).1
          10 .paid 3).1 10 .cancelled 4).1 1
      = some (S + Q) := by
  have h1 := cycle_step1 S Q p (not_lt.mpr hQS)
  have h2 := cycle_step2 S Q p
  have h3 := cycle_step3 S Q p (not_lt.mpr hQS)
  have h4 := cycle_step4 S Q p
  simp only [h1, h2, h3, h4]
  simp [stockOf, lookupMedicine, keluarMovements, movementsWithReference,
    cycleDB3, cycleDB4, cycleMed, saleMv, restoreMv, redeductMv]

/-- Witness for C10 at `S = 5`, `Q = 3`, `p = 2`: the second cancellation
ends with stock 8 = 5 + 3. -/
theorem updateStatus_second_cancel_witness :
    stockOf (updateTransactionStatus
        (updateTransactionStatus
          (updateTransactionStatus
            (createTransaction (cycleDB 5 2) (cycleInput 3) 1).1 10 .cancelled 2).1
          10 .paid 3).1 10 .cancelled 4).1 1
      = some 8 := by
  have h := updateStatus_second_cancel_restores_sum_of_outs 5 3 2 (by decide) (by decide)
  norm_num at h
  exact h.2.2

end RumahKhitan
